import Mathlib

/-!
# Verification of the lndc listener (`lndc/listener.go`)

A shallow embedding of the connection-acceptance and handshake-orchestration
engine of the `lndc` package: the semaphore-bounded accept loop
(`Listener.listen`), the per-connection handshake task
(`Listener.doHandshake`), outcome delivery (`acceptConn` / `rejectConn`),
the public `Accept`, and the idempotent-signal `Close`.

The concurrent Go code is embedded as pure functions from an *environment*
(the results of the external calls: the quit-channel polls, the raw reads
and writes, the noise state machine's act processing) to the ordered list
of observable events the code performs (deadline arming, reads, writes,
connection close, outcome emission on the result channel, semaphore
release).  The token pool (`handshakeSema`) is additionally modelled as a
small-step transition system whose reachable states give the capacity
invariant.
-/

namespace Lndc

/-- Go `error` values, abstracted to their message. -/
abbrev Error := String

/-- The long-term identity key (`*koblitz.PrivateKey`), abstract. -/
structure PrivateKey where
  d : Nat
deriving DecidableEq, Repr

/-- The noise "Machine" handshake state machine, consumed as a black box:
only its construction parameters are visible to the listener code. -/
structure Machine where
  initiator : Bool
  localStatic : PrivateKey
deriving DecidableEq, Repr

/-- `NewNoiseMachine(initiator, localStatic)`: constructs the responder-role
state machine the listener binds to each accepted connection. -/
def NewNoiseMachine (initiator : Bool) (localStatic : PrivateKey) : Machine :=
  ⟨initiator, localStatic⟩

/-- A raw accepted transport connection (`net.Conn`), abstract identity. -/
structure RawConn where
  id : Nat
deriving DecidableEq, Repr

/-- The lndc `Conn`: the raw connection paired with its noise machine
(`&Conn{conn: conn, noise: NewNoiseMachine(false, l.localStatic)}`). -/
structure Conn where
  conn : RawConn
  noise : Machine
deriving DecidableEq, Repr

/-- `maybeConn` from the source: a struct holding *both* an optional
connection and an optional error.  Exclusivity (exactly one of the two is
set) is a property to be proved about the values actually sent, not a
property of the type. -/
structure maybeConn where
  conn : Option Conn := none
  err : Option Error := none
deriving DecidableEq, Repr

/-- The listener's configuration visible to the handshake task: the local
static key (`l.localStatic`). -/
structure Listener where
  localStatic : PrivateKey
deriving DecidableEq, Repr

/-- Observable events performed by the accept loop and the handshake task,
in program order. -/
inductive Ev where
  /-- a token was taken from `handshakeSema` -/
  | acquireToken
  /-- blocking `l.tcp.Accept()` was attempted -/
  | rawAccept
  /-- a handshake goroutine was dispatched for a raw connection -/
  | spawn (c : RawConn)
  /-- `NewNoiseMachine(false, l.localStatic)` was constructed -/
  | newMachine
  /-- `conn.SetReadDeadline(time.Now().Add(handshakeReadTimeout))` -/
  | armDeadline
  /-- `conn.SetReadDeadline(time.Time{})` -/
  | clearDeadline
  /-- `io.ReadFull(conn, actOne[:])` was attempted -/
  | readA1
  /-- `noise.RecvActOne(actOne)` was attempted -/
  | recvA1
  /-- `noise.GenActTwo()` was attempted -/
  | genA2
  /-- `conn.Write(actTwo[:])` was attempted -/
  | writeA2
  /-- `io.ReadFull(conn, actThree[:])` was attempted -/
  | readA3
  /-- `noise.RecvActThree(actThree)` was attempted -/
  | recvA3
  /-- `lndcConn.conn.Close()` -/
  | closeConn
  /-- an outcome was sent on the `l.conns` result channel -/
  | emit (o : maybeConn)
  /-- a token was returned to `handshakeSema` -/
  | releaseToken
deriving DecidableEq, Repr

/-- Environment of one `doHandshake` run: the outcome of every external
interaction, in the order the code can reach them.  `none` means the call
succeeded, `some e` that it returned error `e`.  The three `quit` fields
record whether the quit channel is closed when the corresponding
`select` inspects it. -/
structure HSEnv where
  /-- quit already closed at the task's initial non-blocking pre-check -/
  quitAtPre : Bool
  /-- result of `io.ReadFull(conn, actOne[:])` -/
  readActOne : Option Error
  /-- result of `noise.RecvActOne(actOne)` -/
  recvActOne : Option Error
  /-- result of `noise.GenActTwo()` -/
  genActTwo : Option Error
  /-- result of `conn.Write(actTwo[:])` -/
  writeActTwo : Option Error
  /-- quit already closed at the non-blocking re-check after Act Two -/
  quitAtMid : Bool
  /-- result of `io.ReadFull(conn, actThree[:])` -/
  readActThree : Option Error
  /-- result of `noise.RecvActThree(actThree)` -/
  recvActThree : Option Error
  /-- the delivery `select` in `acceptConn`/`rejectConn` is resolved by
  the quit channel rather than by a consumer taking the outcome -/
  quitAtSend : Bool
deriving DecidableEq, Repr

/-- `acceptConn`/`rejectConn`: send the outcome on `l.conns` unless the
`select` is resolved by `<-l.quit`, in which case the value is dropped. -/
def sendOutcome (quitAtSend : Bool) (o : maybeConn) : List Ev :=
  if quitAtSend then [] else [Ev.emit o]

/-- The body of `Listener.doHandshake` (everything but the deferred
semaphore release), as the ordered list of events it performs under
environment `env` on raw connection `c`. -/
def Listener.doHandshakeBody (l : Listener) (c : RawConn) (env : HSEnv) :
    List Ev :=
  if env.quitAtPre then []
  else
    let lndcConn : Conn := ⟨c, NewNoiseMachine false l.localStatic⟩
    Ev.newMachine :: Ev.armDeadline :: Ev.readA1 ::
    match env.readActOne with
    | some e => Ev.closeConn :: sendOutcome env.quitAtSend ⟨none, some e⟩
    | none =>
      Ev.recvA1 ::
      match env.recvActOne with
      | some e => Ev.closeConn :: sendOutcome env.quitAtSend ⟨none, some e⟩
      | none =>
        Ev.genA2 ::
        match env.genActTwo with
        | some e => Ev.closeConn :: sendOutcome env.quitAtSend ⟨none, some e⟩
        | none =>
          Ev.writeA2 ::
          match env.writeActTwo with
          | some e =>
              Ev.closeConn :: sendOutcome env.quitAtSend ⟨none, some e⟩
          | none =>
            if env.quitAtMid then []
            else
              Ev.armDeadline :: Ev.readA3 ::
              match env.readActThree with
              | some e =>
                  Ev.closeConn :: sendOutcome env.quitAtSend ⟨none, some e⟩
              | none =>
                Ev.recvA3 ::
                match env.recvActThree with
                | some e =>
                    Ev.closeConn ::
                      sendOutcome env.quitAtSend ⟨none, some e⟩
                | none =>
                    Ev.clearDeadline ::
                      sendOutcome env.quitAtSend ⟨some lndcConn, none⟩

/-- `Listener.doHandshake`: the body followed by the deferred
`l.handshakeSema <- struct{}{}`, which fires on every exit path. -/
def Listener.doHandshake (l : Listener) (c : RawConn) (env : HSEnv) :
    List Ev :=
  l.doHandshakeBody c env ++ [Ev.releaseToken]

/-- The accept loop's `select` between `<-l.handshakeSema` and `<-l.quit`. -/
inductive SemaOrQuit where
  | token
  | quit
deriving DecidableEq, Repr

instance : DecidableEq (Except Error RawConn) := fun a b =>
  match a, b with
  | .error x, .error y =>
      if h : x = y then .isTrue (by rw [h])
      else .isFalse (by simp [h])
  | .ok x, .ok y =>
      if h : x = y then .isTrue (by rw [h])
      else .isFalse (by simp [h])
  | .error _, .ok _ => .isFalse (by simp)
  | .ok _, .error _ => .isFalse (by simp)

/-- Environment of one iteration of `Listener.listen`. -/
structure LoopEnv where
  /-- which case of the initial `select` fires -/
  sel : SemaOrQuit
  /-- result of the blocking `l.tcp.Accept()` -/
  acceptResult : Except Error RawConn
  /-- the `rejectConn` delivery `select` is resolved by `<-l.quit` -/
  quitAtSend : Bool
deriving DecidableEq, Repr

/-- One iteration of `Listener.listen`: the events it performs and whether
the loop continues (`false` exactly on the `<-l.quit` return). -/
def Listener.listenIter (_l : Listener) (env : LoopEnv) : List Ev × Bool :=
  match env.sel with
  | .quit => ([], false)
  | .token =>
    match env.acceptResult with
    | .error e =>
        (Ev.acquireToken :: Ev.rawAccept ::
          (sendOutcome env.quitAtSend ⟨none, some e⟩ ++ [Ev.releaseToken]),
         true)
    | .ok c => ([Ev.acquireToken, Ev.rawAccept, Ev.spawn c], true)

/-- The error returned by `Accept` when the quit channel is closed. -/
def lndcClosedErr : Error := "lndc connection closed"

/-- Resolution of the `select` in `Listener.Accept`: either an outcome is
received from `l.conns`, or `<-l.quit` fires. -/
inductive AcceptEv where
  | outcome (o : maybeConn)
  | quit
deriving DecidableEq, Repr

/-- `Listener.Accept`: returns the received outcome's fields, or the
closed-listener error when the quit channel fires. -/
def Listener.Accept (_l : Listener) : AcceptEv → Option Conn × Option Error
  | .outcome o => (o.conn, o.err)
  | .quit => (none, some lndcClosedErr)

/-- Receiving from `l.conns` viewed as consuming a pending rendezvous send:
the first pending outcome is taken and removed, so each outcome reaches
exactly one `Accept` caller. -/
def consumeOutcome : List maybeConn → Option (maybeConn × List maybeConn)
  | [] => none
  | o :: rest => some (o, rest)

/-- The listener's lifecycle state: whether `close(l.quit)` has run and
whether the underlying `*net.TCPListener` has been closed. -/
structure CloseState where
  quitClosed : Bool
  tcpClosed : Bool
deriving DecidableEq, Repr

/-- The error Go's `net` package returns for operations on a closed
listener. -/
def errNetClosed : Error := "use of closed network connection"

/-- `l.tcp.Close()` (external collaborator, Go `net.TCPListener`): closing
an already-closed listener returns an error; otherwise it closes the
listener and returns nil. -/
def tcpClose (s : CloseState) : CloseState × Option Error :=
  if s.tcpClosed then (s, some errNetClosed)
  else ({ s with tcpClosed := true }, none)

/-- `Listener.Close`: fire `close(l.quit)` unless already fired (the
`select`/`default` guard), then unconditionally call `l.tcp.Close()` and
return its result.  The `Bool` records whether `close(l.quit)` ran in
this call. -/
def Listener.Close (s : CloseState) : CloseState × Option Error × Bool :=
  let fired := !s.quitClosed
  let s1 : CloseState := { s with quitClosed := true }
  let r := tcpClose s1
  (r.1, r.2, fired)

/-! ## The token pool as a transition system

`handshakeSema` is a buffered channel of capacity `defaultHandshakes`
pre-filled with that many tokens.  A token moves from *available* to
*in-flight* at the accept loop's `<-l.handshakeSema` and back at the two
release sites (`l.handshakeSema <- struct{}{}` after a failed raw accept,
and the deferred release in `doHandshake`).  Releases are performed only
by the current holder of a token. -/

/-- `defaultHandshakes`: capacity of the handshake semaphore. -/
def defaultHandshakes : Nat := 1000

/-- Token-pool state: tokens sitting in the channel and tokens held by
in-flight work (the accept loop between acquire and dispatch, plus live
handshake tasks). -/
structure PoolState where
  avail : Nat
  inflight : Nat
deriving DecidableEq, Repr

/-- One token-pool transition: an acquire by the accept loop, or a release
by a holder. -/
inductive PoolStep : PoolState → PoolState → Prop
  | acquire (s : PoolState) (h : 0 < s.avail) :
      PoolStep s ⟨s.avail - 1, s.inflight + 1⟩
  | release (s : PoolState) (h : 0 < s.inflight) :
      PoolStep s ⟨s.avail + 1, s.inflight - 1⟩

/-- Pool states reachable from the initial full pool of capacity `C`. -/
inductive PoolReachable (C : Nat) : PoolState → Prop
  | init : PoolReachable C ⟨C, 0⟩
  | step {s t : PoolState} :
      PoolReachable C s → PoolStep s t → PoolReachable C t

/-- Recognizes an outcome emission event. -/
def isEmit : Ev → Bool
  | .emit _ => true
  | _ => false

/-- Recognizes a deadline-arming event. -/
def isArm : Ev → Bool
  | .armDeadline => true
  | _ => false

/-- Recognizes a token-release event. -/
def isRelease : Ev → Bool
  | .releaseToken => true
  | _ => false

/-- Recognizes a token-acquire event. -/
def isAcquire : Ev → Bool
  | .acquireToken => true
  | _ => false

/-- Recognizes a raw-connection close event. -/
def isClose : Ev → Bool
  | .closeConn => true
  | _ => false

/-- Number of outcomes emitted to the result channel in a trace. -/
def emitCount (tr : List Ev) : Nat := tr.countP isEmit

/-- Number of `SetReadDeadline(now + timeout)` arms in a trace. -/
def armCount (tr : List Ev) : Nat := tr.countP isArm

/-- Number of tokens returned to `handshakeSema` in a trace. -/
def releaseCount (tr : List Ev) : Nat := tr.countP isRelease

/-- Number of tokens taken from `handshakeSema` in a trace. -/
def acquireCount (tr : List Ev) : Nat := tr.countP isAcquire

/-- Number of `conn.Close()` calls in a trace. -/
def closeCount (tr : List Ev) : Nat := tr.countP isClose

/-- The handshake task executes a `conn.Close()` exactly when one of its
fallible steps fails before a quit checkpoint cuts the run short; this
condition never depends on how the delivery `select` resolves. -/
def errPath (env : HSEnv) : Bool :=
  !env.quitAtPre &&
    (env.readActOne.isSome || env.recvActOne.isSome ||
      env.genActTwo.isSome || env.writeActTwo.isSome ||
      (!env.quitAtMid &&
        (env.readActThree.isSome || env.recvActThree.isSome)))

/-- An outcome value carries exactly one of a connection and an error. -/
def exclusive (o : maybeConn) : Prop :=
  (o.conn.isSome ∧ o.err = none) ∨ (o.conn = none ∧ o.err.isSome)

/-- The task's mid-handshake shutdown-abort branch is taken: the first
four handshake steps succeed and the re-check after writing Act Two sees
the quit channel closed. -/
def midAbort (env : HSEnv) : Prop :=
  env.quitAtPre = false ∧ env.readActOne = none ∧ env.recvActOne = none ∧
    env.genActTwo = none ∧ env.writeActTwo = none ∧ env.quitAtMid = true

instance (env : HSEnv) : Decidable (midAbort env) := by
  unfold midAbort; infer_instance

/-- All handshake steps succeed and no quit check fires before the Act
Three read: the task reaches the second deadline arm. -/
def reachesActThree (env : HSEnv) : Prop :=
  env.quitAtPre = false ∧ env.readActOne = none ∧ env.recvActOne = none ∧
    env.genActTwo = none ∧ env.writeActTwo = none ∧ env.quitAtMid = false

instance (env : HSEnv) : Decidable (reachesActThree env) := by
  unfold reachesActThree; infer_instance

/-- The full success path: every step succeeds and no quit check fires
before the final delivery. -/
def successPath (env : HSEnv) : Prop :=
  reachesActThree env ∧ env.readActThree = none ∧ env.recvActThree = none

instance (env : HSEnv) : Decidable (successPath env) := by
  unfold successPath; infer_instance

/-! ## Helper lemmas -/

@[simp]
theorem mem_sendOutcome {qs : Bool} {o : maybeConn} {x : Ev} :
    x ∈ sendOutcome qs o ↔ qs = false ∧ x = Ev.emit o := by
  cases qs <;> simp [sendOutcome]

@[simp]
theorem countP_sendOutcome_emit (qs : Bool) (o : maybeConn) :
    (sendOutcome qs o).countP isEmit = if qs then 0 else 1 := by
  cases qs <;> simp [sendOutcome, isEmit]

@[simp]
theorem countP_sendOutcome_arm (qs : Bool) (o : maybeConn) :
    (sendOutcome qs o).countP isArm = 0 := by
  cases qs <;> simp [sendOutcome, isArm]

@[simp]
theorem countP_sendOutcome_release (qs : Bool) (o : maybeConn) :
    (sendOutcome qs o).countP isRelease = 0 := by
  cases qs <;> simp [sendOutcome, isRelease]

@[simp]
theorem countP_sendOutcome_close (qs : Bool) (o : maybeConn) :
    (sendOutcome qs o).countP isClose = 0 := by
  cases qs <;> simp [sendOutcome, isClose]

@[simp]
theorem countP_sendOutcome_acquire (qs : Bool) (o : maybeConn) :
    (sendOutcome qs o).countP isAcquire = 0 := by
  cases qs <;> simp [sendOutcome, isAcquire]

/-- Exhaustive characterization of the handshake task: every run falls in
one of nine path shapes (pre-check abort, a failure at one of the six
fallible steps, the mid-handshake shutdown abort, or full success), each
with its exact event trace. -/
theorem doHandshake_cases (l : Listener) (c : RawConn) (env : HSEnv) :
    (env.quitAtPre = true ∧ l.doHandshake c env = [Ev.releaseToken]) ∨
    (∃ e, env.quitAtPre = false ∧ env.readActOne = some e ∧
      l.doHandshake c env =
        [Ev.newMachine, Ev.armDeadline, Ev.readA1, Ev.closeConn] ++
          sendOutcome env.quitAtSend ⟨none, some e⟩ ++ [Ev.releaseToken]) ∨
    (∃ e, env.quitAtPre = false ∧ env.readActOne = none ∧
      env.recvActOne = some e ∧
      l.doHandshake c env =
        [Ev.newMachine, Ev.armDeadline, Ev.readA1, Ev.recvA1,
          Ev.closeConn] ++
          sendOutcome env.quitAtSend ⟨none, some e⟩ ++ [Ev.releaseToken]) ∨
    (∃ e, env.quitAtPre = false ∧ env.readActOne = none ∧
      env.recvActOne = none ∧ env.genActTwo = some e ∧
      l.doHandshake c env =
        [Ev.newMachine, Ev.armDeadline, Ev.readA1, Ev.recvA1, Ev.genA2,
          Ev.closeConn] ++
          sendOutcome env.quitAtSend ⟨none, some e⟩ ++ [Ev.releaseToken]) ∨
    (∃ e, env.quitAtPre = false ∧ env.readActOne = none ∧
      env.recvActOne = none ∧ env.genActTwo = none ∧
      env.writeActTwo = some e ∧
      l.doHandshake c env =
        [Ev.newMachine, Ev.armDeadline, Ev.readA1, Ev.recvA1, Ev.genA2,
          Ev.writeA2, Ev.closeConn] ++
          sendOutcome env.quitAtSend ⟨none, some e⟩ ++ [Ev.releaseToken]) ∨
    (env.quitAtPre = false ∧ env.readActOne = none ∧
      env.recvActOne = none ∧ env.genActTwo = none ∧
      env.writeActTwo = none ∧ env.quitAtMid = true ∧
      l.doHandshake c env =
        [Ev.newMachine, Ev.armDeadline, Ev.readA1, Ev.recvA1, Ev.genA2,
          Ev.writeA2, Ev.releaseToken]) ∨
    (∃ e, env.quitAtPre = false ∧ env.readActOne = none ∧
      env.recvActOne = none ∧ env.genActTwo = none ∧
      env.writeActTwo = none ∧ env.quitAtMid = false ∧
      env.readActThree = some e ∧
      l.doHandshake c env =
        [Ev.newMachine, Ev.armDeadline, Ev.readA1, Ev.recvA1, Ev.genA2,
          Ev.writeA2, Ev.armDeadline, Ev.readA3, Ev.closeConn] ++
          sendOutcome env.quitAtSend ⟨none, some e⟩ ++ [Ev.releaseToken]) ∨
    (∃ e, env.quitAtPre = false ∧ env.readActOne = none ∧
      env.recvActOne = none ∧ env.genActTwo = none ∧
      env.writeActTwo = none ∧ env.quitAtMid = false ∧
      env.readActThree = none ∧ env.recvActThree = some e ∧
      l.doHandshake c env =
        [Ev.newMachine, Ev.armDeadline, Ev.readA1, Ev.recvA1, Ev.genA2,
          Ev.writeA2, Ev.armDeadline, Ev.readA3, Ev.recvA3,
          Ev.closeConn] ++
          sendOutcome env.quitAtSend ⟨none, some e⟩ ++ [Ev.releaseToken]) ∨
    (env.quitAtPre = false ∧ env.readActOne = none ∧
      env.recvActOne = none ∧ env.genActTwo = none ∧
      env.writeActTwo = none ∧ env.quitAtMid = false ∧
      env.readActThree = none ∧ env.recvActThree = none ∧
      l.doHandshake c env =
        [Ev.newMachine, Ev.armDeadline, Ev.readA1, Ev.recvA1, Ev.genA2,
          Ev.writeA2, Ev.armDeadline, Ev.readA3, Ev.recvA3,
          Ev.clearDeadline] ++
          sendOutcome env.quitAtSend
            ⟨some ⟨c, NewNoiseMachine false l.localStatic⟩, none⟩ ++
          [Ev.releaseToken]) := by
  rcases env with ⟨qp, r1, v1, g2, w2, qm, r3, v3, qs⟩
  cases qp
  case true => exact Or.inl ⟨rfl, rfl⟩
  case false =>
  cases r1
  case some e => exact Or.inr (Or.inl ⟨e, rfl, rfl, rfl⟩)
  case none =>
  cases v1
  case some e => exact Or.inr (Or.inr (Or.inl ⟨e, rfl, rfl, rfl, rfl⟩))
  case none =>
  cases g2
  case some e =>
    exact Or.inr (Or.inr (Or.inr (Or.inl ⟨e, rfl, rfl, rfl, rfl, rfl⟩)))
  case none =>
  cases w2
  case some e =>
    exact Or.inr (Or.inr (Or.inr (Or.inr
      (Or.inl ⟨e, rfl, rfl, rfl, rfl, rfl, rfl⟩))))
  case none =>
  cases qm
  case true =>
    exact Or.inr (Or.inr (Or.inr (Or.inr (Or.inr
      (Or.inl ⟨rfl, rfl, rfl, rfl, rfl, rfl, rfl⟩)))))
  case false =>
  cases r3
  case some e =>
    exact Or.inr (Or.inr (Or.inr (Or.inr (Or.inr (Or.inr
      (Or.inl ⟨e, rfl, rfl, rfl, rfl, rfl, rfl, rfl, rfl⟩))))))
  case none =>
  cases v3
  case some e =>
    exact Or.inr (Or.inr (Or.inr (Or.inr (Or.inr (Or.inr (Or.inr
      (Or.inl ⟨e, rfl, rfl, rfl, rfl, rfl, rfl, rfl, rfl, rfl⟩)))))))
  case none =>
    exact Or.inr (Or.inr (Or.inr (Or.inr (Or.inr (Or.inr (Or.inr
      (Or.inr ⟨rfl, rfl, rfl, rfl, rfl, rfl, rfl, rfl, rfl⟩)))))))

/-- In every reachable pool state, available plus in-flight tokens equal
the initial capacity. -/
theorem pool_reachable_sum (C : Nat) (s : PoolState)
    (h : PoolReachable C s) : s.avail + s.inflight = C := by
  induction h with
  | init => rfl
  | step _ hst ih =>
      cases hst with
      | acquire ht => simp only []; omega
      | release ht => simp only []; omega

/-- The full-success trace of the handshake task with an attentive
consumer. -/
theorem doHandshake_success (l : Listener) (c : RawConn) (env : HSEnv)
    (h : successPath env) (hqs : env.quitAtSend = false) :
    l.doHandshake c env =
      [Ev.newMachine, Ev.armDeadline, Ev.readA1, Ev.recvA1, Ev.genA2,
        Ev.writeA2, Ev.armDeadline, Ev.readA3, Ev.recvA3,
        Ev.clearDeadline,
        Ev.emit ⟨some ⟨c, NewNoiseMachine false l.localStatic⟩, none⟩,
        Ev.releaseToken] := by
  obtain ⟨⟨hqp, h1, h2, h3, h4, hqm⟩, h5, h6⟩ := h
  simp [Listener.doHandshake, Listener.doHandshakeBody, sendOutcome,
    hqp, h1, h2, h3, h4, hqm, h5, h6, hqs]

/-- The deferred semaphore release fires exactly once in every run of the
handshake task. -/
theorem releaseCount_doHandshake (l : Listener) (c : RawConn)
    (env : HSEnv) : releaseCount (l.doHandshake c env) = 1 := by
  rcases doHandshake_cases l c env with
    ⟨_, htr⟩ | ⟨e, _, _, htr⟩ | ⟨e, _, _, _, htr⟩ | ⟨e, _, _, _, _, htr⟩ |
    ⟨e, _, _, _, _, _, htr⟩ | ⟨_, _, _, _, _, _, htr⟩ |
    ⟨e, _, _, _, _, _, _, _, htr⟩ | ⟨e, _, _, _, _, _, _, _, _, htr⟩ |
    ⟨_, _, _, _, _, _, _, _, htr⟩ <;>
  simp [htr, releaseCount, List.countP_append, List.countP_cons, isRelease]

/-- The deferred semaphore release is the last event of every run of the
handshake task. -/
theorem doHandshake_getLast (l : Listener) (c : RawConn) (env : HSEnv) :
    (l.doHandshake c env).getLast? = some Ev.releaseToken := by
  have h : ∀ tr : List Ev, (tr ++ [Ev.releaseToken]).getLast? =
      some Ev.releaseToken := by
    intro tr
    induction tr with
    | nil => rfl
    | cons a t ih =>
        rw [List.cons_append, List.getLast?_cons, ih]
        cases t <;> simp
  exact h _

/-- How many outcomes a handshake run emits: none when the pre-check
aborts, the mid-handshake abort fires, or the delivery select resolves by
quit; exactly one otherwise. -/
theorem emitCount_doHandshake (l : Listener) (c : RawConn) (env : HSEnv) :
    emitCount (l.doHandshake c env) =
      if env.quitAtPre = true ∨ midAbort env ∨ env.quitAtSend = true
      then 0 else 1 := by
  rcases doHandshake_cases l c env with
    ⟨hqp, htr⟩ | ⟨e, hqp, h1, htr⟩ | ⟨e, hqp, h1, h2, htr⟩ |
    ⟨e, hqp, h1, h2, h3, htr⟩ | ⟨e, hqp, h1, h2, h3, h4, htr⟩ |
    ⟨hqp, h1, h2, h3, h4, hqm, htr⟩ |
    ⟨e, hqp, h1, h2, h3, h4, hqm, h5, htr⟩ |
    ⟨e, hqp, h1, h2, h3, h4, hqm, h5, h6, htr⟩ |
    ⟨hqp, h1, h2, h3, h4, hqm, h5, h6, htr⟩ <;>
  simp_all [emitCount, List.countP_append, List.countP_cons, isEmit,
    midAbort]

/-- How many read deadlines a handshake run arms: none when the pre-check
aborts, two once the Act Three read is reached, one otherwise. -/
theorem armCount_doHandshake (l : Listener) (c : RawConn) (env : HSEnv) :
    armCount (l.doHandshake c env) =
      if env.quitAtPre = true then 0
      else if reachesActThree env then 2 else 1 := by
  rcases doHandshake_cases l c env with
    ⟨hqp, htr⟩ | ⟨e, hqp, h1, htr⟩ | ⟨e, hqp, h1, h2, htr⟩ |
    ⟨e, hqp, h1, h2, h3, htr⟩ | ⟨e, hqp, h1, h2, h3, h4, htr⟩ |
    ⟨hqp, h1, h2, h3, h4, hqm, htr⟩ |
    ⟨e, hqp, h1, h2, h3, h4, hqm, h5, htr⟩ |
    ⟨e, hqp, h1, h2, h3, h4, hqm, h5, h6, htr⟩ |
    ⟨hqp, h1, h2, h3, h4, hqm, h5, h6, htr⟩ <;>
  simp_all [armCount, List.countP_append, List.countP_cons, isArm,
    reachesActThree]

/-- A handshake run closes the raw connection exactly when a fallible
step fails before a quit checkpoint cuts the run short; the delivery
select's resolution plays no role. -/
theorem closeCount_doHandshake (l : Listener) (c : RawConn)
    (env : HSEnv) :
    closeCount (l.doHandshake c env) = if errPath env then 1 else 0 := by
  rcases doHandshake_cases l c env with
    ⟨hqp, htr⟩ | ⟨e, hqp, h1, htr⟩ | ⟨e, hqp, h1, h2, htr⟩ |
    ⟨e, hqp, h1, h2, h3, htr⟩ | ⟨e, hqp, h1, h2, h3, h4, htr⟩ |
    ⟨hqp, h1, h2, h3, h4, hqm, htr⟩ |
    ⟨e, hqp, h1, h2, h3, h4, hqm, h5, htr⟩ |
    ⟨e, hqp, h1, h2, h3, h4, hqm, h5, h6, htr⟩ |
    ⟨hqp, h1, h2, h3, h4, hqm, h5, h6, htr⟩ <;>
  simp_all [closeCount, List.countP_append, List.countP_cons, isClose,
    errPath]

/-- The connection is closed during a run exactly when a fallible step
fails before a quit checkpoint. -/
theorem closeConn_mem_doHandshake (l : Listener) (c : RawConn)
    (env : HSEnv) :
    Ev.closeConn ∈ l.doHandshake c env ↔ errPath env = true := by
  rcases doHandshake_cases l c env with
    ⟨hqp, htr⟩ | ⟨e, hqp, h1, htr⟩ | ⟨e, hqp, h1, h2, htr⟩ |
    ⟨e, hqp, h1, h2, h3, htr⟩ | ⟨e, hqp, h1, h2, h3, h4, htr⟩ |
    ⟨hqp, h1, h2, h3, h4, hqm, htr⟩ |
    ⟨e, hqp, h1, h2, h3, h4, hqm, h5, htr⟩ |
    ⟨e, hqp, h1, h2, h3, h4, hqm, h5, h6, htr⟩ |
    ⟨hqp, h1, h2, h3, h4, hqm, h5, h6, htr⟩ <;>
  simp_all [errPath]

/-- Every outcome a handshake run sends on the result channel is either
an error outcome or the success outcome wrapping the accepted connection
with its keyed noise machine. -/
theorem doHandshake_emit_shape (l : Listener) (c : RawConn) (env : HSEnv)
    (o : maybeConn) (h : Ev.emit o ∈ l.doHandshake c env) :
    (∃ e, o = ⟨none, some e⟩) ∨
      o = ⟨some ⟨c, NewNoiseMachine false l.localStatic⟩, none⟩ := by
  rcases doHandshake_cases l c env with
    ⟨hqp, htr⟩ | ⟨e, hqp, h1, htr⟩ | ⟨e, hqp, h1, h2, htr⟩ |
    ⟨e, hqp, h1, h2, h3, htr⟩ | ⟨e, hqp, h1, h2, h3, h4, htr⟩ |
    ⟨hqp, h1, h2, h3, h4, hqm, htr⟩ |
    ⟨e, hqp, h1, h2, h3, h4, hqm, h5, htr⟩ |
    ⟨e, hqp, h1, h2, h3, h4, hqm, h5, h6, htr⟩ |
    ⟨hqp, h1, h2, h3, h4, hqm, h5, h6, htr⟩ <;>
  rw [htr] at h <;> simp at h <;> simp [h]

/-- Every outcome the accept loop itself sends on the result channel is
an error outcome. -/
theorem listenIter_emit_shape (l : Listener) (env : LoopEnv)
    (o : maybeConn) (h : Ev.emit o ∈ (l.listenIter env).1) :
    ∃ e, o = ⟨none, some e⟩ := by
  rcases env with ⟨sel, ar, qs⟩
  cases sel <;> cases ar <;>
    simp_all [Listener.listenIter]

/-! ## Claims -/

/-- C1: tokens in flight plus tokens available always equal the capacity
`defaultHandshakes`, so at most that many handshake tasks are ever
concurrently active; every acquired token is released exactly once on
every exit path — the deferred release of the handshake task fires once
per run, an accept-level failure releases its token inside the same loop
iteration, and a successful raw accept hands its token to exactly one
spawned task. -/
theorem capacity_invariant :
    (∀ s : PoolState, PoolReachable defaultHandshakes s →
        s.avail + s.inflight = defaultHandshakes ∧
        s.inflight ≤ defaultHandshakes) ∧
    (∀ (l : Listener) (c : RawConn) (env : HSEnv),
        releaseCount (l.doHandshake c env) = 1) ∧
    (∀ (l : Listener) (env : LoopEnv) (e : Error),
        env.sel = SemaOrQuit.token → env.acceptResult = Except.error e →
        acquireCount (l.listenIter env).1 = 1 ∧
        releaseCount (l.listenIter env).1 = 1) ∧
    (∀ (l : Listener) (env : LoopEnv) (c : RawConn),
        env.sel = SemaOrQuit.token → env.acceptResult = Except.ok c →
        acquireCount (l.listenIter env).1 = 1 ∧
        releaseCount (l.listenIter env).1 = 0 ∧
        Ev.spawn c ∈ (l.listenIter env).1) := by
  refine ⟨?_, ?_, ?_, ?_⟩
  · intro s h
    have hs := pool_reachable_sum defaultHandshakes s h
    exact ⟨hs, by omega⟩
  · exact releaseCount_doHandshake
  · intro l env e hsel har
    simp [Listener.listenIter, hsel, har, acquireCount, releaseCount,
      List.countP_append, List.countP_cons, isAcquire, isRelease]
  · intro l env c hsel har
    simp [Listener.listenIter, hsel, har, acquireCount, releaseCount,
      List.countP_cons, isAcquire, isRelease]

/-- Witness for C1 at capacity `defaultHandshakes`: the state after one
acquire is reachable and balanced, a concrete successful handshake run
releases its token exactly once, and a concrete failed-accept iteration
acquires exactly one token. -/
theorem capacity_invariant_witness :
    (PoolState.mk (defaultHandshakes - 1) 1).avail +
        (PoolState.mk (defaultHandshakes - 1) 1).inflight =
      defaultHandshakes ∧
    releaseCount ((Listener.mk ⟨0⟩).doHandshake ⟨3⟩
        ⟨false, none, none, none, none, false, none, none, false⟩) = 1 ∧
    acquireCount ((Listener.mk ⟨0⟩).listenIter
        ⟨SemaOrQuit.token, Except.error "accept tcp: closed",
          false⟩).1 = 1 := by
  refine ⟨?_, ?_, ?_⟩
  · exact (capacity_invariant.1 _ (PoolReachable.step PoolReachable.init
      (PoolStep.acquire ⟨defaultHandshakes, 0⟩ (by decide)))).1
  · exact capacity_invariant.2.1 ⟨⟨0⟩⟩ ⟨3⟩ _
  · exact (capacity_invariant.2.2.1 ⟨⟨0⟩⟩ _ "accept tcp: closed"
      rfl rfl).1

/-- C2 counterexample: the claim says every path other than the
mid-handshake shutdown abort emits exactly one outcome, naming the
initial pre-check in particular; but a task whose pre-check sees the quit
channel closed emits none, and so does a task whose outcome delivery is
resolved by the quit channel — neither is the mid-handshake abort
branch. -/
theorem task_emission_cex :
    emitCount ((Listener.mk ⟨0⟩).doHandshake ⟨0⟩
        ⟨true, none, none, none, none, false, none, none, false⟩) = 0 ∧
    ¬ midAbort ⟨true, none, none, none, none, false, none, none, false⟩ ∧
    emitCount ((Listener.mk ⟨0⟩).doHandshake ⟨0⟩
        ⟨false, none, none, none, none, false, none, none, true⟩) = 0 ∧
    ¬ midAbort ⟨false, none, none, none, none, false, none, none,
      true⟩ := by
  decide

/-- C2 (amended): a handshake task emits no outcome when its pre-check
sees the quit channel closed, when the mid-handshake abort branch fires,
or when the delivery select is resolved by the quit channel; on every
other path it emits exactly one outcome. -/
theorem task_outcome_emission :
    ∀ (l : Listener) (c : RawConn) (env : HSEnv),
      emitCount (l.doHandshake c env) =
        if env.quitAtPre = true ∨ midAbort env ∨ env.quitAtSend = true
        then 0 else 1 :=
  emitCount_doHandshake

/-- C3 counterexample: the second call of `Close` returns a non-nil
error, because `Close` unconditionally re-invokes the underlying TCP
listener's close, which fails on an already-closed listener. -/
theorem close_twice_cex :
    (Listener.Close (Listener.Close ⟨false, false⟩).1).2.1 =
        some errNetClosed ∧
    (Listener.Close (Listener.Close ⟨false, false⟩).1).2.1 ≠ none :=
  ⟨rfl, by decide⟩

/-- C3 (amended): the lifecycle signal is one-shot — `Close` fires it
only when it has not fired before, so a second `Close` fires no
additional lifecycle effect; but the second call re-invokes the
underlying TCP listener's close and returns its non-nil
already-closed error. -/
theorem close_signal_once :
    ∀ s : CloseState,
      (Listener.Close s).2.2 = !s.quitClosed ∧
      (Listener.Close s).1.quitClosed = true ∧
      (Listener.Close s).1.tcpClosed = true ∧
      (Listener.Close (Listener.Close s).1).2.2 = false ∧
      (Listener.Close (Listener.Close s).1).2.1 = some errNetClosed := by
  intro s
  rcases s with ⟨q, t⟩
  cases q <;> cases t <;> simp [Listener.Close, tcpClose]

/-- C4: `Accept` returns exactly the received outcome's
connection-or-error when an outcome arrives, fails with the
listener-closed error when the quit channel fires, blocks when neither is
available, and consumes exactly one pending outcome per call. -/
theorem accept_spec :
    (∀ (l : Listener) (o : maybeConn),
        l.Accept (AcceptEv.outcome o) = (o.conn, o.err)) ∧
    (∀ l : Listener,
        l.Accept AcceptEv.quit = (none, some lndcClosedErr)) ∧
    (∀ (o : maybeConn) (rest : List maybeConn),
        consumeOutcome (o :: rest) = some (o, rest)) ∧
    consumeOutcome [] = none :=
  ⟨fun _ _ => rfl, fun _ => rfl, fun _ _ => rfl, rfl⟩

/-- C5: when the raw accept fails, the loop iteration synthesizes an
error outcome, delivers it, returns its token, and keeps looping; the
loop terminates only when the initial select picks the quit channel. -/
theorem listen_accept_failure :
    ∀ (l : Listener) (env : LoopEnv) (e : Error),
      env.sel = SemaOrQuit.token → env.acceptResult = Except.error e →
      (l.listenIter env).2 = true ∧
      (env.quitAtSend = false →
        (l.listenIter env).1 =
          [Ev.acquireToken, Ev.rawAccept, Ev.emit ⟨none, some e⟩,
            Ev.releaseToken]) ∧
      (∀ env2 : LoopEnv, (l.listenIter env2).2 = false →
        env2.sel = SemaOrQuit.quit) := by
  intro l env e hsel har
  refine ⟨?_, ?_, ?_⟩
  · simp [Listener.listenIter, hsel, har]
  · intro hqs
    simp [Listener.listenIter, hsel, har, hqs, sendOutcome]
  · intro env2 h2
    rcases env2 with ⟨sel, ar, qs⟩
    cases sel
    · cases ar <;> simp_all [Listener.listenIter]
    · rfl

/-- Witness for C5: a concrete iteration whose raw accept fails emits the
error outcome, releases the token, and continues. -/
theorem listen_accept_failure_witness :
    ((Listener.mk ⟨2⟩).listenIter
        ⟨SemaOrQuit.token, Except.error "connection reset",
          false⟩).2 = true ∧
    ((Listener.mk ⟨2⟩).listenIter
        ⟨SemaOrQuit.token, Except.error "connection reset", false⟩).1 =
      [Ev.acquireToken, Ev.rawAccept,
        Ev.emit ⟨none, some "connection reset"⟩, Ev.releaseToken] :=
  ⟨(listen_accept_failure ⟨⟨2⟩⟩ _ _ rfl rfl).1,
    (listen_accept_failure ⟨⟨2⟩⟩ _ _ rfl rfl).2.1 rfl⟩

/-- C6: the handshake task performs exactly the sequence read Act One,
`RecvActOne`, `GenActTwo`, write Act Two, read Act Three,
`RecvActThree`; a failure at any step closes the raw connection, attempts
exactly one error outcome, and terminates the task, and the token release
is the unique final event of every run — so the connection is always
closed before the token is released. -/
theorem handshake_sequence :
    (∀ (l : Listener) (c : RawConn) (env : HSEnv),
        successPath env → env.quitAtSend = false →
        l.doHandshake c env =
          [Ev.newMachine, Ev.armDeadline, Ev.readA1, Ev.recvA1, Ev.genA2,
            Ev.writeA2, Ev.armDeadline, Ev.readA3, Ev.recvA3,
            Ev.clearDeadline,
            Ev.emit ⟨some ⟨c, NewNoiseMachine false l.localStatic⟩, none⟩,
            Ev.releaseToken]) ∧
    (∀ (l : Listener) (c : RawConn) (env : HSEnv) (e : Error),
        env.quitAtPre = false → env.readActOne = some e →
        l.doHandshake c env =
          [Ev.newMachine, Ev.armDeadline, Ev.readA1, Ev.closeConn] ++
            sendOutcome env.quitAtSend ⟨none, some e⟩ ++
            [Ev.releaseToken]) ∧
    (∀ (l : Listener) (c : RawConn) (env : HSEnv) (e : Error),
        env.quitAtPre = false → env.readActOne = none →
        env.recvActOne = some e →
        l.doHandshake c env =
          [Ev.newMachine, Ev.armDeadline, Ev.readA1, Ev.recvA1,
            Ev.closeConn] ++
            sendOutcome env.quitAtSend ⟨none, some e⟩ ++
            [Ev.releaseToken]) ∧
    (∀ (l : Listener) (c : RawConn) (env : HSEnv) (e : Error),
        env.quitAtPre = false → env.readActOne = none →
        env.recvActOne = none → env.genActTwo = some e →
        l.doHandshake c env =
          [Ev.newMachine, Ev.armDeadline, Ev.readA1, Ev.recvA1, Ev.genA2,
            Ev.closeConn] ++
            sendOutcome env.quitAtSend ⟨none, some e⟩ ++
            [Ev.releaseToken]) ∧
    (∀ (l : Listener) (c : RawConn) (env : HSEnv) (e : Error),
        env.quitAtPre = false → env.readActOne = none →
        env.recvActOne = none → env.genActTwo = none →
        env.writeActTwo = some e →
        l.doHandshake c env =
          [Ev.newMachine, Ev.armDeadline, Ev.readA1, Ev.recvA1, Ev.genA2,
            Ev.writeA2, Ev.closeConn] ++
            sendOutcome env.quitAtSend ⟨none, some e⟩ ++
            [Ev.releaseToken]) ∧
    (∀ (l : Listener) (c : RawConn) (env : HSEnv) (e : Error),
        env.quitAtPre = false → env.readActOne = none →
        env.recvActOne = none → env.genActTwo = none →
        env.writeActTwo = none → env.quitAtMid = false →
        env.readActThree = some e →
        l.doHandshake c env =
          [Ev.newMachine, Ev.armDeadline, Ev.readA1, Ev.recvA1, Ev.genA2,
            Ev.writeA2, Ev.armDeadline, Ev.readA3, Ev.closeConn] ++
            sendOutcome env.quitAtSend ⟨none, some e⟩ ++
            [Ev.releaseToken]) ∧
    (∀ (l : Listener) (c : RawConn) (env : HSEnv) (e : Error),
        env.quitAtPre = false → env.readActOne = none →
        env.recvActOne = none → env.genActTwo = none →
        env.writeActTwo = none → env.quitAtMid = false →
        env.readActThree = none → env.recvActThree = some e →
        l.doHandshake c env =
          [Ev.newMachine, Ev.armDeadline, Ev.readA1, Ev.recvA1, Ev.genA2,
            Ev.writeA2, Ev.armDeadline, Ev.readA3, Ev.recvA3,
            Ev.closeConn] ++
            sendOutcome env.quitAtSend ⟨none, some e⟩ ++
            [Ev.releaseToken]) ∧
    (∀ (l : Listener) (c : RawConn) (env : HSEnv),
        (l.doHandshake c env).getLast? = some Ev.releaseToken ∧
        releaseCount (l.doHandshake c env) = 1) := by
  refine ⟨doHandshake_success, ?_, ?_, ?_, ?_, ?_, ?_, fun l c env =>
    ⟨doHandshake_getLast l c env, releaseCount_doHandshake l c env⟩⟩
  · intro l c env e hqp h1
    simp [Listener.doHandshake, Listener.doHandshakeBody, hqp, h1]
  · intro l c env e hqp h1 h2
    simp [Listener.doHandshake, Listener.doHandshakeBody, hqp, h1, h2]
  · intro l c env e hqp h1 h2 h3
    simp [Listener.doHandshake, Listener.doHandshakeBody, hqp, h1, h2,
      h3]
  · intro l c env e hqp h1 h2 h3 h4
    simp [Listener.doHandshake, Listener.doHandshakeBody, hqp, h1, h2,
      h3, h4]
  · intro l c env e hqp h1 h2 h3 h4 hqm h5
    simp [Listener.doHandshake, Listener.doHandshakeBody, hqp, h1, h2,
      h3, h4, hqm, h5]
  · intro l c env e hqp h1 h2 h3 h4 hqm h5 h6
    simp [Listener.doHandshake, Listener.doHandshakeBody, hqp, h1, h2,
      h3, h4, hqm, h5, h6]

/-- Witness for C6: a concrete task whose Act One read fails closes the
connection, emits one error outcome, and releases its token last. -/
theorem handshake_sequence_witness :
    (Listener.mk ⟨5⟩).doHandshake ⟨4⟩
        ⟨false, some "i/o timeout", none, none, none, false, none, none,
          false⟩ =
      [Ev.newMachine, Ev.armDeadline, Ev.readA1, Ev.closeConn] ++
        sendOutcome false ⟨none, some "i/o timeout"⟩ ++
        [Ev.releaseToken] :=
  handshake_sequence.2.1 ⟨⟨5⟩⟩ ⟨4⟩ _ "i/o timeout" rfl rfl

/-- C7: every outcome sent on the result channel carries exactly one of a
connection and an error — handshake tasks send either an error outcome or
a success outcome wrapping the secured connection, the accept loop sends
only error outcomes — and `Accept` never returns a nil connection
together with a nil error. -/
theorem outcome_exclusive :
    (∀ (l : Listener) (c : RawConn) (env : HSEnv) (o : maybeConn),
        Ev.emit o ∈ l.doHandshake c env → exclusive o) ∧
    (∀ (l : Listener) (env : LoopEnv) (o : maybeConn),
        Ev.emit o ∈ (l.listenIter env).1 → exclusive o) ∧
    (∀ (l : Listener) (o : maybeConn), exclusive o →
        l.Accept (AcceptEv.outcome o) ≠
          ((none : Option Conn), (none : Option Error))) ∧
    (∀ l : Listener,
        l.Accept AcceptEv.quit ≠
          ((none : Option Conn), (none : Option Error))) := by
  refine ⟨?_, ?_, ?_, ?_⟩
  · intro l c env o h
    rcases doHandshake_emit_shape l c env o h with ⟨e, rfl⟩ | rfl
    · exact Or.inr ⟨rfl, rfl⟩
    · exact Or.inl ⟨rfl, rfl⟩
  · intro l env o h
    obtain ⟨e, rfl⟩ := listenIter_emit_shape l env o h
    exact Or.inr ⟨rfl, rfl⟩
  · intro l o ho h
    simp only [Listener.Accept, Prod.mk.injEq] at h
    rcases ho with ⟨hc, he⟩ | ⟨hc, he⟩
    · rw [h.1] at hc; simp at hc
    · rw [h.2] at he; simp at he
  · intro l h
    simp [Listener.Accept] at h

/-- Witness for C7: a concrete error outcome emitted by a failing task is
exclusive, and `Accept` on an exclusive outcome never yields nil-nil. -/
theorem outcome_exclusive_witness :
    exclusive ⟨none, some "short read"⟩ ∧
    (Listener.mk ⟨0⟩).Accept
        (AcceptEv.outcome ⟨none, some "short read"⟩) ≠
      ((none : Option Conn), (none : Option Error)) := by
  constructor
  · exact outcome_exclusive.1 ⟨⟨0⟩⟩ ⟨6⟩
      ⟨false, some "short read", none, none, none, false, none, none,
        false⟩ _ (by decide)
  · exact outcome_exclusive.2.2.1 ⟨⟨0⟩⟩ _ (Or.inr ⟨rfl, rfl⟩)

/-- C8 counterexample: a task whose Act One read fails arms only one read
deadline, not two as the claim requires of every task. -/
theorem deadline_cex :
    armCount ((Listener.mk ⟨0⟩).doHandshake ⟨1⟩
        ⟨false, some "read tcp: i/o timeout", none, none, none, false,
          none, none, false⟩) ≠ 2 ∧
    armCount ((Listener.mk ⟨0⟩).doHandshake ⟨1⟩
        ⟨false, some "read tcp: i/o timeout", none, none, none, false,
          none, none, false⟩) = 1 := by
  decide

/-- C8 (amended): a handshake task arms at most two read deadlines — one
before the Act One read whenever the pre-check passes and one before the
Act Three read; exactly two are armed on every run that reaches the Act
Three read, and on the success path the deadline is cleared entirely
before the success outcome is emitted. -/
theorem deadline_arms :
    (∀ (l : Listener) (c : RawConn) (env : HSEnv),
        armCount (l.doHandshake c env) ≤ 2) ∧
    (∀ (l : Listener) (c : RawConn) (env : HSEnv),
        reachesActThree env → armCount (l.doHandshake c env) = 2) ∧
    (∀ (l : Listener) (c : RawConn) (env : HSEnv),
        successPath env → env.quitAtSend = false →
        l.doHandshake c env =
          [Ev.newMachine, Ev.armDeadline, Ev.readA1, Ev.recvA1, Ev.genA2,
            Ev.writeA2, Ev.armDeadline, Ev.readA3, Ev.recvA3] ++
            [Ev.clearDeadline,
              Ev.emit ⟨some ⟨c, NewNoiseMachine false l.localStatic⟩,
                none⟩,
              Ev.releaseToken]) := by
  refine ⟨?_, ?_, ?_⟩
  · intro l c env
    rw [armCount_doHandshake]
    split
    · omega
    · split <;> omega
  · intro l c env h
    rw [armCount_doHandshake]
    simp [h.1, h]
  · intro l c env h hqs
    rw [doHandshake_success l c env h hqs]
    rfl

/-- Witness for C8: a concrete run that reaches the Act Three read arms
exactly two deadlines. -/
theorem deadline_arms_witness :
    armCount ((Listener.mk ⟨0⟩).doHandshake ⟨8⟩
        ⟨false, none, none, none, none, false, some "i/o timeout", none,
          false⟩) = 2 :=
  deadline_arms.2.1 ⟨⟨0⟩⟩ ⟨8⟩ _ ⟨rfl, rfl, rfl, rfl, rfl, rfl⟩

/-- C9: a task that sees the quit channel closed at its pre-check does
nothing but release its token — its whole trace is the single deferred
release, so no machine is constructed, no deadline armed, and nothing is
read, written, or closed on the accepted connection. -/
theorem precheck_no_io :
    ∀ (l : Listener) (c : RawConn) (env : HSEnv),
      env.quitAtPre = true →
      l.doHandshake c env = [Ev.releaseToken] ∧
      releaseCount (l.doHandshake c env) = 1 ∧
      ∀ x ∈ l.doHandshake c env, x = Ev.releaseToken := by
  intro l c env hqp
  have htr : l.doHandshake c env = [Ev.releaseToken] := by
    simp [Listener.doHandshake, Listener.doHandshakeBody, hqp]
  refine ⟨htr, ?_, ?_⟩
  · rw [htr]; rfl
  · intro x hx
    rw [htr] at hx
    simpa using hx

/-- Witness for C9: a concrete task started after shutdown performs only
its token release. -/
theorem precheck_no_io_witness :
    (Listener.mk ⟨0⟩).doHandshake ⟨10⟩
        ⟨true, none, none, none, none, false, none, none, false⟩ =
      [Ev.releaseToken] :=
  (precheck_no_io ⟨⟨0⟩⟩ ⟨10⟩ _ rfl).1

/-- C10 counterexample: a task whose Act One read fails and whose error
outcome delivery is resolved by the quit channel has already closed the
raw connection — the claim that a task exiting on the signal never calls
close fails on the error-delivery race. -/
theorem quit_close_cex :
    Ev.closeConn ∈ (Listener.mk ⟨0⟩).doHandshake ⟨2⟩
        ⟨false, some "connection reset by peer", none, none, none, false,
          none, none, true⟩ ∧
    emitCount ((Listener.mk ⟨0⟩).doHandshake ⟨2⟩
        ⟨false, some "connection reset by peer", none, none, none, false,
          none, none, true⟩) = 0 := by
  decide

/-- C10 (amended): on the pre-check exit, the mid-handshake re-check
exit, and a success-outcome delivery resolved by the signal, the task
never closes the raw connection (it is abandoned open); on an
error-outcome delivery resolved by the signal the connection was already
closed by the error handling before the delivery attempt, and observing
the signal adds no close: the number of closes is independent of how the
delivery select resolves. -/
theorem quit_exit_no_close :
    ∀ (l : Listener) (c : RawConn) (env : HSEnv),
      (env.quitAtPre = true → Ev.closeConn ∉ l.doHandshake c env) ∧
      (midAbort env → Ev.closeConn ∉ l.doHandshake c env) ∧
      (successPath env → Ev.closeConn ∉ l.doHandshake c env) ∧
      (∀ qs : Bool,
        closeCount (l.doHandshake c { env with quitAtSend := qs }) =
          closeCount (l.doHandshake c env)) := by
  intro l c env
  refine ⟨?_, ?_, ?_, ?_⟩
  · intro hqp
    simp [closeConn_mem_doHandshake, errPath, hqp]
  · intro h
    obtain ⟨hqp, h1, h2, h3, h4, hqm⟩ := h
    simp [closeConn_mem_doHandshake, errPath, hqp, h1, h2, h3, h4, hqm]
  · intro h
    obtain ⟨⟨hqp, h1, h2, h3, h4, hqm⟩, h5, h6⟩ := h
    simp [closeConn_mem_doHandshake, errPath, hqp, h1, h2, h3, h4, hqm,
      h5, h6]
  · intro qs
    simp [closeCount_doHandshake, errPath]

/-- Witness for C10: a concrete mid-handshake abort never closes the raw
connection. -/
theorem quit_exit_no_close_witness :
    Ev.closeConn ∉ (Listener.mk ⟨0⟩).doHandshake ⟨11⟩
        ⟨false, none, none, none, none, true, none, none, false⟩ :=
  (quit_exit_no_close ⟨⟨0⟩⟩ ⟨11⟩ _).2.1 ⟨rfl, rfl, rfl, rfl, rfl, rfl⟩

end Lndc
